import Mathlib

/-!
Verification of the hotel-loyalty backend (Express/PostgreSQL) against its
natural-language specification.

The development shallowly embeds the request-processing logic of the strict
revision of the server (`src/unnamed/part_000`: the `/api/auth`,
`POST /api/guests` and `GET /api/bonuses/search` handlers together with the
startup configuration checks) and the browser form logic
(`src/unnamed/part_002`: `updateGuestInfo`).  Strings are modelled as Lean
`String`s manipulated through their underlying `List Char`; JavaScript string
`length`/`slice` act on UTF-16 units, which for the basic-multilingual-plane
characters appearing here coincide with code points.  JSON numbers are
modelled as exact rationals (`ℚ`); every comparison the code performs on an
already-parsed number is exact on IEEE doubles, so `ℚ` is a faithful carrier
for them.  SHA-256 itself is treated as an uninterpreted function parameter.
-/

namespace Amvera

/-- Decidable equality for `Except`, so concrete handler runs can be checked
by `decide`. -/
instance {ε α : Type} [DecidableEq ε] [DecidableEq α] :
    DecidableEq (Except ε α) := fun a b =>
  match a, b with
  | .error x, .error y =>
    if h : x = y then .isTrue (by rw [h]) else .isFalse (by simp [h])
  | .error _, .ok _ => .isFalse (by simp)
  | .ok _, .error _ => .isFalse (by simp)
  | .ok x, .ok y =>
    if h : x = y then .isTrue (by rw [h]) else .isFalse (by simp [h])

/-- JavaScript whitespace test, restricted to the ASCII whitespace characters
(space, tab, LF, CR, VT, FF); the handlers never receive the exotic Unicode
space characters that `\s` additionally matches. -/
def isWs (c : Char) : Bool :=
  c == ' ' || c == '\t' || c == '\n' || c == '\r' ||
    c == Char.ofNat 11 || c == Char.ofNat 12

/-- Drop trailing whitespace from a character list (the right half of
JavaScript `String.prototype.trim`). -/
def dropTrailingWs : List Char → List Char
  | [] => []
  | c :: cs =>
    match dropTrailingWs cs with
    | [] => if isWs c then [] else [c]
    | r => c :: r

/-- JavaScript `String.prototype.trim` on the character list. -/
def jsTrimList (l : List Char) : List Char :=
  dropTrailingWs (l.dropWhile isWs)

/-- JavaScript `String.prototype.trim`. -/
def jsTrim (s : String) : String :=
  String.mk (jsTrimList s.data)

/-- JavaScript `String.prototype.toLowerCase`, covering the ASCII letters and the
Cyrillic letters that occur in the loyalty-tier labels. -/
def jsToLowerChar (c : Char) : Char :=
  if 'A' ≤ c ∧ c ≤ 'Z' then Char.ofNat (c.toNat + 32)
  else if 'А' ≤ c ∧ c ≤ 'Я' then Char.ofNat (c.toNat + 32)
  else if c = 'Ё' then 'ё'
  else c

/-- Lower-casing (`toLowerCase`) on a whole string. -/
def jsToLower (s : String) : String :=
  String.mk (s.data.map jsToLowerChar)

/-- The substitution `replace(/\s+/g, '')`: removing every whitespace run is removing every
whitespace character. -/
def removeWs (s : String) : String :=
  String.mk (s.data.filter (fun c => !isWs c))

/-- The substitution `replace(/\D/g, '')`: keep exactly the ASCII decimal digits. -/
def stripNonDigits (s : String) : String :=
  String.mk (s.data.filter Char.isDigit)

/-- JavaScript `String.prototype.length` (UTF-16 units; code points here). -/
def jsLen (s : String) : Nat :=
  s.data.length

/-- JavaScript `slice(-n)`: the last `n` characters (the whole string when shorter). -/
def sliceNeg (n : Nat) (s : String) : String :=
  String.mk (s.data.drop (s.data.length - n))

/-- JavaScript `padStart(n, c)` on a character list. -/
def padStartL (n : Nat) (c : Char) (l : List Char) : List Char :=
  List.replicate (n - l.length) c ++ l

/-- Truthiness of an optional string field (`undefined`/`null` and the empty
string are falsy). -/
def truthyS : Option String → Bool
  | none => false
  | some s => !(s == "")

/-- A loosely-typed JSON field value: string, (finite) number, or absent.
JSON cannot transport `NaN`/`Infinity`, so inbound numbers are finite. -/
inductive JVal where
  | jstr (s : String)
  | jnum (q : ℚ)
  | jnull
deriving DecidableEq

/-- JavaScript truthiness of a `JVal`. -/
def truthyJ : JVal → Bool
  | .jstr s => !(s == "")
  | .jnum q => !(q == 0)
  | .jnull => false

/-- Numeric value of a digit run. -/
def digitsVal (ds : List Char) : Nat :=
  ds.foldl (fun a c => a * 10 + (c.toNat - 48)) 0

/-- Power of ten with an integer exponent, evaluated in `ℚ`. -/
def pow10 (e : ℤ) : ℚ :=
  if 0 ≤ e then ((10 : ℚ) ^ e.toNat) else 1 / ((10 : ℚ) ^ (-e).toNat)

/-- The unsigned decimal part of `Number.parseFloat`: longest prefix of
digits, optional point, digits; `none` when no digit is found (NaN). -/
def parseUnsigned (l : List Char) : Option (ℚ × List Char) :=
  let ip := l.takeWhile Char.isDigit
  let r1 := l.dropWhile Char.isDigit
  match r1 with
  | '.' :: r2 =>
    let fp := r2.takeWhile Char.isDigit
    let r3 := r2.dropWhile Char.isDigit
    if ip.isEmpty && fp.isEmpty then none
    else some ((digitsVal ip : ℚ) + (digitsVal fp : ℚ) / ((10 : ℚ) ^ fp.length), r3)
  | _ => if ip.isEmpty then none else some ((digitsVal ip : ℚ), r1)

/-- Exponent suffix of a decimal literal (`e`/`E`, optional sign, digits);
`0` when absent or malformed (`parseFloat` then stops before the `e`). -/
def parseExpSuffix (l : List Char) : ℤ :=
  match l with
  | c :: r =>
    if c == 'e' || c == 'E' then
      match r with
      | '+' :: r2 =>
        let ds := r2.takeWhile Char.isDigit
        if ds.isEmpty then 0 else (digitsVal ds : ℤ)
      | '-' :: r2 =>
        let ds := r2.takeWhile Char.isDigit
        if ds.isEmpty then 0 else -(digitsVal ds : ℤ)
      | r2 =>
        let ds := r2.takeWhile Char.isDigit
        if ds.isEmpty then 0 else (digitsVal ds : ℤ)
    else 0
  | [] => 0

/-- JavaScript `Number.parseFloat` on a string, as an exact rational; `none` models NaN
(and `Infinity`, which the validator likewise rejects as non-finite). -/
def parseFloatQ (s : String) : Option ℚ :=
  let l := s.data.dropWhile isWs
  let sgn : ℚ := match l with
    | '-' :: _ => -1
    | _ => 1
  let l1 : List Char := match l with
    | '-' :: r => r
    | '+' :: r => r
    | r => r
  match parseUnsigned l1 with
  | none => none
  | some (q, rest) => some (sgn * q * pow10 (parseExpSuffix rest))

/-- Truncation toward zero, as JavaScript number-to-integer coercions do. -/
def jsTrunc (q : ℚ) : ℤ :=
  if 0 ≤ q then ⌊q⌋ else -⌊-q⌋

/-- JavaScript `Number.parseInt(s, 10)` on a string: optional sign then leading decimal
digits; `none` models NaN. -/
def parseIntStr (s : String) : Option ℤ :=
  let l := s.data.dropWhile isWs
  let sgn : ℤ := match l with
    | '-' :: _ => -1
    | _ => 1
  let l1 : List Char := match l with
    | '-' :: r => r
    | '+' :: r => r
    | r => r
  let ds := l1.takeWhile Char.isDigit
  if ds.isEmpty then none else some (sgn * (digitsVal ds : ℤ))

/-- JavaScript `Number.parseFloat` applied to a JSON field value. -/
def parseFloatJ : JVal → Option ℚ
  | .jstr s => parseFloatQ s
  | .jnum q => some q
  | .jnull => none

/-- JavaScript `Number.parseInt(v, 10)` applied to a JSON field value.  A number is
stringified first, which truncates toward zero (for the magnitudes the
validator accepts, far below 1e21, stringification never uses exponent
form). -/
def parseIntJ : JVal → Option ℤ
  | .jstr s => parseIntStr s
  | .jnum q => some (jsTrunc q)
  | .jnull => none

/-! ### Password-hash normalization and the auth endpoint (`part_000`) -/

/-- First normalization stage of `normalizeHash`:
`hashValue.trim().toLowerCase().replace(/\s+/g, '')`. -/
def cleanHashStage (s : String) : String :=
  removeWs (jsToLower (jsTrim s))

/-- The optional `[:=]` separator at the end of the `sha256` tag. -/
def stripSep : List Char → List Char
  | ':' :: r => r
  | '=' :: r => r
  | l => l

/-- Second stage: `normalized.replace(/^(sha-?256[:=]?)/, '')` (the input is
already lower-case and whitespace-free at this point, so only the lower-case
spellings can occur). -/
def stripShaTag (s : String) : String :=
  match s.data with
  | 's' :: 'h' :: 'a' :: '-' :: '2' :: '5' :: '6' :: r => String.mk (stripSep r)
  | 's' :: 'h' :: 'a' :: '2' :: '5' :: '6' :: r => String.mk (stripSep r)
  | l => String.mk l

/-- Third stage: `normalized.replace(/^0x/, '')`. -/
def stripHexTag (s : String) : String :=
  match s.data with
  | '0' :: 'x' :: r => String.mk r
  | l => String.mk l

/-- The final gate of `normalizeHash`: `/^[a-f0-9]{64}$/i`. -/
def isHex64 (s : String) : Bool :=
  jsLen s == 64 &&
    s.data.all (fun c =>
      c.isDigit || ('a' ≤ c && c ≤ 'f') || ('A' ≤ c && c ≤ 'F'))

/-- The function `normalizeHash` from `src/unnamed/part_000` lines 73–88: trim,
lower-case, strip whitespace, strip an optional `sha256`-style tag and an
optional `0x` tag, then demand exactly 64 hex characters; otherwise the
value is treated as unset (`undefined`). -/
def normalizeHash : Option String → Option String
  | none => none
  | some s =>
    let normalized := stripHexTag (stripShaTag (cleanHashStage s))
    if isHex64 normalized then some normalized else none

/-- JavaScript `Array.from(new Set(list))`: deduplicate keeping first occurrences. -/
def dedupKeepFirst (l : List String) : List String :=
  l.foldl (fun acc x => if acc.contains x then acc else acc ++ [x]) []

/-- The candidate passwords tried by `/api/auth`: the raw password and its
trimmed form, non-empty, deduplicated. -/
def candidatePasswords (raw : String) : List String :=
  dedupKeepFirst ([raw, jsTrim raw].filter (fun pw => jsLen pw > 0))

/-- Operational model of JavaScript string equality (`===`): compare the
character sequences left to right and stop at the first mismatch.  The
second component counts the character comparisons performed, making the
short-circuit timing of the comparison explicit. -/
def strEqSteps : List Char → List Char → Bool × Nat
  | [], [] => (true, 0)
  | [], _ :: _ => (false, 0)
  | _ :: _, [] => (false, 0)
  | a :: as, b :: bs =>
    if a = b then
      let r := strEqSteps as bs
      (r.1, r.2 + 1)
    else (false, 1)

/-- The Boolean value of `a === b` on strings. -/
def jsStrEq (a b : String) : Bool :=
  (strEqSteps a.data b.data).1

/-- The number of character comparisons `a === b` performs. -/
def jsStrEqTime (a b : String) : Nat :=
  (strEqSteps a.data b.data).2

/-- The match test of `/api/auth` in `part_000` lines 285–287:
`candidateHashes.map(normalizeHash).some(hash => hash === PASSWORD_HASH)`,
with SHA-256 as an uninterpreted function parameter `sha`. -/
def hashMatches (sha : String → String) (passwordHash : String)
    (rawPassword : String) : Bool :=
  (((candidatePasswords rawPassword).map sha).map
      (fun h => normalizeHash (some h))).any
    (fun h =>
      match h with
      | some s => jsStrEq s passwordHash
      | none => false)

/-- The environment-derived configuration read at process start. -/
structure ServerConfig where
  databaseUrl : Option String
  authDisabledEnv : Option String
  passwordHashEnv : Option String

/-- The flag `AUTH_DISABLED`: `String(process.env.AUTH_DISABLED || '').toLowerCase()
=== 'true'`. -/
def authDisabled (cfg : ServerConfig) : Bool :=
  jsToLower (cfg.authDisabledEnv.getD "") == "true"

/-- The constant `PASSWORD_HASH = normalizeHash(process.env.PASSWORD_HASH)`. -/
def passwordHash (cfg : ServerConfig) : Option String :=
  normalizeHash cfg.passwordHashEnv

/-- The startup guards of `part_000` lines 92–102: the process serves
requests only when `DATABASE_URL` is set and either auth is disabled or a
valid `PASSWORD_HASH` is configured; otherwise `process.exit(1)`. -/
def startupOk (cfg : ServerConfig) : Bool :=
  truthyS cfg.databaseUrl && (authDisabled cfg || (passwordHash cfg).isSome)

/-- An HTTP response of the auth endpoint (status, success flag, message). -/
structure AuthResp where
  status : Nat
  success : Bool
  message : String
deriving DecidableEq

/-- The `/api/auth` handler of `part_000` lines 243–300. -/
def authHandler (sha : String → String) (cfg : ServerConfig)
    (password : Option String) : AuthResp :=
  if authDisabled cfg then ⟨200, true, "Авторизация отключена администратором"⟩
  else
    match password with
    | none => ⟨400, false, "Пароль обязателен"⟩
    | some pw =>
      if pw = "" then ⟨400, false, "Пароль обязателен"⟩
      else if jsTrim pw = "" then ⟨400, false, "Пароль обязателен"⟩
      else
        match passwordHash cfg with
        | none => ⟨500, false, "Ошибка конфигурации сервера"⟩
        | some ph =>
          if hashMatches sha ph pw then ⟨200, true, "Доступ разрешён"⟩
          else ⟨401, false, "Неверный пароль"⟩

/-! ### Check-in date normalization (`part_000` lines 173–204) -/

/-- The shape test `/^\d{4}-\d{2}-\d{2}$/`. -/
def reYMDdash (s : String) : Bool :=
  match s.data with
  | [a, b, c, d, e, f, g, h, i, j] =>
    a.isDigit && b.isDigit && c.isDigit && d.isDigit && e == '-' &&
      f.isDigit && g.isDigit && h == '-' && i.isDigit && j.isDigit
  | _ => false

/-- The shape test `/^\d{2}\.\d{2}\.\d{4}$/`. -/
def reDMYdot (s : String) : Bool :=
  match s.data with
  | [a, b, c, d, e, f, g, h, i, j] =>
    a.isDigit && b.isDigit && c == '.' && d.isDigit && e.isDigit &&
      f == '.' && g.isDigit && h.isDigit && i.isDigit && j.isDigit
  | _ => false

/-- The shape test `/^\d{2}-\d{2}-\d{4}$/`. -/
def reDMYdash (s : String) : Bool :=
  match s.data with
  | [a, b, c, d, e, f, g, h, i, j] =>
    a.isDigit && b.isDigit && c == '-' && d.isDigit && e.isDigit &&
      f == '-' && g.isDigit && h.isDigit && i.isDigit && j.isDigit
  | _ => false

/-- The shape test `/^\d{4}\.\d{2}\.\d{2}$/`. -/
def reYMDdot (s : String) : Bool :=
  match s.data with
  | [a, b, c, d, e, f, g, h, i, j] =>
    a.isDigit && b.isDigit && c.isDigit && d.isDigit && e == '.' &&
      f.isDigit && g.isDigit && h == '.' && i.isDigit && j.isDigit
  | _ => false

/-- Rebuild the canonical string:
`` `${year}-${month.padStart(2, '0')}-${day.padStart(2, '0')}` ``. -/
def canonOf (y m d : List Char) : String :=
  String.mk (y ++ '-' :: padStartL 2 '0' m ++ '-' :: padStartL 2 '0' d)

/-- The function `normalizeCheckinDate` from `part_000` lines 173–204: falsy input is
`null`; the trimmed value must match one of the four accepted shapes, each
rewritten to canonical `YYYY-MM-DD` (the component extraction mirrors the
`split('.')`/`split('-')` destructuring, which the preceding shape test makes
total — the wildcard fallbacks are unreachable). -/
def normalizeCheckinDate (dateValue : Option String) : Option String :=
  match dateValue with
  | none => none
  | some v =>
    if v = "" then none
    else
      let raw := jsTrim v
      if raw = "" then none
      else if reYMDdash raw then some raw
      else if reDMYdot raw then
        match raw.data with
        | [d1, d2, _, m1, m2, _, y1, y2, y3, y4] =>
          some (canonOf [y1, y2, y3, y4] [m1, m2] [d1, d2])
        | _ => none
      else if reDMYdash raw then
        match raw.data with
        | [d1, d2, _, m1, m2, _, y1, y2, y3, y4] =>
          some (canonOf [y1, y2, y3, y4] [m1, m2] [d1, d2])
        | _ => none
      else if reYMDdot raw then
        match raw.data with
        | [y1, y2, y3, y4, _, m1, m2, _, d1, d2] =>
          some (canonOf [y1, y2, y3, y4] [m1, m2] [d1, d2])
        | _ => none
      else none

/-- Gregorian leap-year rule, as used by ECMAScript dates. -/
def isLeapYear (y : Nat) : Bool :=
  (y % 4 == 0 && y % 100 != 0) || y % 400 == 0

/-- Days in a month (1-based month). -/
def daysInMonth (y m : Nat) : Nat :=
  if m == 2 then (if isLeapYear y then 29 else 28)
  else if m == 4 || m == 6 || m == 9 || m == 11 then 30
  else 31

/-- Model of `!Number.isNaN(Date.parse(s))` for a canonical `YYYY-MM-DD`
string: ECMAScript rejects an ISO date whose month or day component is out
of calendar range.  Non-canonical shapes never reach this check. -/
def dateParseValid (s : String) : Bool :=
  match s.data with
  | [y1, y2, y3, y4, _, m1, m2, _, d1, d2] =>
    let y := digitsVal [y1, y2, y3, y4]
    let m := digitsVal [m1, m2]
    let d := digitsVal [d1, d2]
    1 ≤ m && m ≤ 12 && 1 ≤ d && d ≤ daysInMonth y m
  | _ => false

/-! ### The strict `POST /api/guests` validator (`part_000` lines 303–430) -/

/-- The request body of `POST /api/guests`, with the field types of the wire
contract (strings for the textual fields, string-or-number for the two
numeric fields, every field possibly absent). -/
structure Payload where
  guest_phone : Option String
  last_name : Option String
  first_name : Option String
  checkin_date : Option String
  loyalty_level : Option String
  shelter_booking_id : Option String
  total_amount : JVal
  bonus_spent : JVal

/-- The handler's `normalizedPhoneDigits`: digits of the submitted phone. -/
def pDigits (p : Payload) : String :=
  stripNonDigits (p.guest_phone.getD "")

/-- The handler's `lastNameSanitized`. -/
def lastNameSanitized (p : Payload) : String :=
  jsTrim (p.last_name.getD "")

/-- The handler's `firstNameSanitized`. -/
def firstNameSanitized (p : Payload) : String :=
  jsTrim (p.first_name.getD "")

/-- The handler's `bookingSanitized`. -/
def bookingSanitized (p : Payload) : String :=
  jsTrim (p.shelter_booking_id.getD "")

/-- The handler's `loyaltySanitized = String(loyalty_level || '').trim()`. -/
def loyaltySanitized (p : Payload) : String :=
  jsTrim (p.loyalty_level.getD "")

/-- The handler's `normalizedDate = normalizeCheckinDate(checkin_date)`. -/
def normalizedDate (p : Payload) : Option String :=
  normalizeCheckinDate p.checkin_date

/-- The handler's `amount = Number.parseFloat(total_amount)` (`none` for non-finite). -/
def amountParsed (p : Payload) : Option ℚ :=
  parseFloatJ p.total_amount

/-- The handler's `bonusValueRaw = Number.parseInt(bonus_spent, 10)`. -/
def bonusRaw (p : Payload) : Option ℤ :=
  parseIntJ p.bonus_spent

/-- The handler's `bonusValue`: the raw parse when finite and positive, else `0`. -/
def bonusValue (p : Payload) : ℤ :=
  match bonusRaw p with
  | some n => if n > 0 then n else 0
  | none => 0

/-- Check 1: a required field is missing/falsy. -/
def reqMissing (p : Payload) : Bool :=
  !(truthyS p.guest_phone && truthyS p.last_name && truthyS p.first_name &&
    truthyS p.shelter_booking_id && truthyJ p.total_amount)

/-- Check 2: fewer than 10 digits in the phone. -/
def phoneShort (p : Payload) : Bool :=
  jsLen (pDigits p) < 10

/-- Check 3: a name is empty after trimming. -/
def namesEmpty (p : Payload) : Bool :=
  lastNameSanitized p == "" || firstNameSanitized p == ""

/-- Check 4: a name exceeds 120 characters. -/
def namesLong (p : Payload) : Bool :=
  jsLen (lastNameSanitized p) > 120 || jsLen (firstNameSanitized p) > 120

/-- Check 5: booking id empty after trimming. -/
def bookingEmpty (p : Payload) : Bool :=
  bookingSanitized p == ""

/-- Check 6: booking id exceeds 80 characters. -/
def bookingLong (p : Payload) : Bool :=
  jsLen (bookingSanitized p) > 80

/-- Check 7: the check-in date matched none of the four shapes. -/
def dateShapeBad (p : Payload) : Bool :=
  (normalizedDate p).isNone

/-- Check 8: `Date.parse` rejects the rewritten date. -/
def dateParseBad (p : Payload) : Bool :=
  !dateParseValid ((normalizedDate p).getD "")

/-- Check 9: `!Number.isFinite(amount) || amount <= 0 || amount > 1_000_000`. -/
def amountBad (p : Payload) : Bool :=
  match amountParsed p with
  | none => true
  | some a => a ≤ 0 || a > 1000000

/-- Check 10: `bonusValue > 1_000_000`. -/
def bonusTooBig (p : Payload) : Bool :=
  bonusValue p > 1000000

def msgRequired : String :=
  "Заполните обязательные поля: телефон, фамилия, имя, номер бронирования и сумму."

def msgPhone : String := "Укажите корректный номер телефона гостя."

def msgNamesEmpty : String := "Фамилия и имя не могут быть пустыми."

def msgNamesLong : String := "Фамилия и имя не должны превышать 120 символов."

def msgBookingEmpty : String := "Укажите номер бронирования Shelter."

def msgBookingLong : String := "Номер бронирования слишком длинный."

def msgDateShape : String := "Некорректный формат даты заезда."

def msgDateParse : String := "Дата заезда не распознана."

def msgAmount : String :=
  "Сумма при выезде должна быть положительным числом не более 1 000 000."

def msgBonus : String := "Списанные баллы не могут превышать 1 000 000."

/-- The row the handler inserts into `guests` when validation passes. -/
structure GuestRecord where
  guest_phone : String
  last_name : String
  first_name : String
  checkin_date : String
  loyalty_level : Option String
  shelter_booking_id : String
  total_amount : ℚ
  bonus_spent : ℤ
deriving DecidableEq

/-- The `values` array of the `INSERT` (on the success path):
`[phoneToStore, lastNameSanitized, firstNameSanitized, normalizedDate,
loyaltySanitized || null, bookingSanitized, amount, bonusValue]`. -/
def mkRecord (p : Payload) : GuestRecord where
  guest_phone := sliceNeg 10 (pDigits p)
  last_name := lastNameSanitized p
  first_name := firstNameSanitized p
  checkin_date := (normalizedDate p).getD ""
  loyalty_level := if loyaltySanitized p = "" then none else some (loyaltySanitized p)
  shelter_booking_id := bookingSanitized p
  total_amount := (amountParsed p).getD 0
  bonus_spent := bonusValue p

/-- The validation pipeline of the strict `POST /api/guests` handler: each
failed check immediately returns its status-400 message, in source order. -/
def validateGuests (p : Payload) : Except String GuestRecord :=
  if reqMissing p then .error msgRequired
  else if phoneShort p then .error msgPhone
  else if namesEmpty p then .error msgNamesEmpty
  else if namesLong p then .error msgNamesLong
  else if bookingEmpty p then .error msgBookingEmpty
  else if bookingLong p then .error msgBookingLong
  else if dateShapeBad p then .error msgDateShape
  else if dateParseBad p then .error msgDateParse
  else if amountBad p then .error msgAmount
  else if bonusTooBig p then .error msgBonus
  else .ok (mkRecord p)

/-- The issues carried by the handler's rejection response: the handler
builds exactly one message, so a rejected payload carries a singleton. -/
def validateGuestsIssues (p : Payload) : List String :=
  match validateGuests p with
  | .error m => [m]
  | .ok _ => []

/-- The HTTP status the handler answers with (400 on validation failure,
200 on the success path). -/
def addGuestStatus (p : Payload) : Nat :=
  match validateGuests p with
  | .error _ => 400
  | .ok _ => 200

/-- Modelled from the spec: §4.2's collect-all policy — "collect all
violations in one pass (not first-error-wins) before rejecting", with the
checks and messages of the handler in source order.  No such collection
exists in the source; this definition exists to compare the handler against
the spec's stated policy. -/
def collectAllIssues (p : Payload) : List String :=
  (if reqMissing p then [msgRequired] else []) ++
  (if phoneShort p then [msgPhone] else []) ++
  (if namesEmpty p then [msgNamesEmpty] else []) ++
  (if namesLong p then [msgNamesLong] else []) ++
  (if bookingEmpty p then [msgBookingEmpty] else []) ++
  (if bookingLong p then [msgBookingLong] else []) ++
  (if dateShapeBad p then [msgDateShape] else []) ++
  (if dateParseBad p then [msgDateParse] else []) ++
  (if amountBad p then [msgAmount] else []) ++
  (if bonusTooBig p then [msgBonus] else [])

/-- Whether a validation run succeeded. -/
def exceptOk : Except String GuestRecord → Bool
  | .ok _ => true
  | .error _ => false

/-! ### `GET /api/bonuses/search` (`part_000` lines 433–479) and the
browser form (`part_002`) -/

/-- The phone handling of the search endpoint: falsy phone is a 400, then
non-digits are stripped, fewer than 10 digits is a 400, and the last 10
digits form the lookup key. -/
def bonusSearchNormalize (phone : Option String) : Except String String :=
  match phone with
  | none => .error "Не указан номер телефона для поиска"
  | some s =>
    if s = "" then .error "Не указан номер телефона для поиска"
    else
      let digits := stripNonDigits s
      if jsLen digits < 10 then .error "Неверный формат номера телефона"
      else .ok (sliceNeg 10 digits)

/-- A row of the `bonuses_balance` projection returned by the search query
(`loyalty_level` and `last_visit_date` may be SQL `NULL`). -/
structure BonusRow where
  guest_phone : String
  last_name : String
  first_name : String
  loyalty_level : Option String
  current_balance : ℚ
  visits_count : ℚ
  last_visit_date : Option String
deriving DecidableEq

/-- The `data` field of the search response:
`result.rows.length ? result.rows[0] : null`. -/
def bonusSearchData (rows : List BonusRow) : Option BonusRow :=
  rows.head?

/-- JavaScript `x || ''` on a nullable string. -/
def jsOrEmpty : Option String → String
  | none => ""
  | some s => s

/-- What `updateGuestInfo` (`part_002` lines 293–352) writes into the
loyalty form field after a search: the record's stored `loyalty_level`
(empty-string fallback) when a record was found, the fixed default
`"1 СЕЗОН"` otherwise. -/
def loyaltyFieldAfterSearch (rows : List BonusRow) : String :=
  match bonusSearchData rows with
  | some g => jsOrEmpty g.loyalty_level
  | none => "1 СЕЗОН"

/-! ### The loyalty-tier resolver described by the spec -/

/-- Collapse internal whitespace runs to single spaces: within a run, skip
ahead while the next character is still whitespace, and emit one space at
the run's end. -/
def collapseWsList : List Char → List Char
  | [] => []
  | c :: cs =>
    if isWs c then
      match cs with
      | [] => [' ']
      | c2 :: _ => if isWs c2 then collapseWsList cs else ' ' :: collapseWsList cs
    else c :: collapseWsList cs

/-- Modelled from the spec: §4.4's input normalization for the tier
resolver — trim, lower-case, collapse internal whitespace runs.  No tier
resolver exists anywhere in the source; these definitions state what §4.4
prescribes so the bonus-lookup response can be compared against it. -/
def normalizeTierLabel (s : String) : String :=
  String.mk (collapseWsList (jsTrimList (s.data.map jsToLowerChar)))

/-- Modelled from the spec: the fixed four-tier table of §3/§4.4, normalized
canonical form paired with display form (the display strings follow §8's
examples and the front-end's default `"1 СЕЗОН"`). -/
def tierPairs : List (String × String) :=
  [("1 сезон", "1 СЕЗОН"), ("2 сезона", "2 СЕЗОНА"),
   ("3 сезона", "3 СЕЗОНА"), ("4 сезона", "4 СЕЗОНА")]

/-- Index of a label in a list, first match. -/
def idxOfAux : List String → String → Option Nat
  | [], _ => none
  | x :: xs, lab => if x = lab then some 0 else (idxOfAux xs lab).map (· + 1)

/-- Modelled from the spec: §4.4's `nextTier` — normalize, look up in the
tier table (absent/empty maps to the first tier's display form), advance by
one step saturating at the last tier, and return the display form. -/
def nextTier (current : String) : String :=
  match idxOfAux (tierPairs.map Prod.fst) (normalizeTierLabel current) with
  | none => ((tierPairs.head?).map Prod.snd).getD ""
  | some i => ((tierPairs.get? (min (i + 1) (tierPairs.length - 1))).map Prod.snd).getD ""

/-! ### Helper lemmas -/

set_option maxRecDepth 8000

/-- A decimal digit is not a whitespace character. -/
lemma isWs_false_of_isDigit {c : Char} (h : c.isDigit = true) : isWs c = false := by
  rcases Bool.eq_false_or_eq_true (isWs c) with ht | hf
  swap
  · exact hf
  · exfalso
    unfold isWs at ht
    simp only [Bool.or_eq_true, beq_iff_eq] at ht
    rcases ht with ((((h1 | h1) | h1) | h1) | h1) | h1 <;>
      subst h1 <;> exact absurd h (by decide)

/-- Trimming leaves a ten-character list with non-whitespace ends unchanged. -/
lemma jsTrimList_ten {a b c d e f g h i j : Char}
    (ha : isWs a = false) (hj : isWs j = false) :
    jsTrimList [a, b, c, d, e, f, g, h, i, j] = [a, b, c, d, e, f, g, h, i, j] := by
  simp [jsTrimList, List.dropWhile, ha, dropTrailingWs, hj]

/-- The Boolean of `===` decides string equality (the short-circuit only
changes the step count, not the verdict). -/
lemma strEqSteps_fst_iff : ∀ l1 l2 : List Char, (strEqSteps l1 l2).1 = true ↔ l1 = l2 := by
  intro l1
  induction l1 with
  | nil => intro l2; cases l2 <;> simp [strEqSteps]
  | cons a as ih =>
    intro l2
    cases l2 with
    | nil => simp [strEqSteps]
    | cons b bs =>
      by_cases hab : a = b
      · subst hab
        simp [strEqSteps, ih]
      · simp [strEqSteps, hab]

/-- String `===` agrees with equality. -/
lemma jsStrEq_iff {a b : String} : jsStrEq a b = true ↔ a = b := by
  rw [jsStrEq, strEqSteps_fst_iff]
  constructor
  · intro h
    cases a; cases b; exact congrArg String.mk h
  · intro h; rw [h]

/-- The per-candidate test inside `hashMatches` holds exactly for the
configured digest. -/
lemma hashCandidate_iff {ph : String} (o : Option String) :
    (match o with
      | some s => jsStrEq s ph
      | none => false) = true ↔ o = some ph := by
  cases o with
  | none => simp
  | some s => simp [jsStrEq_iff]

lemma isDigit_dot : ('.').isDigit = false := by decide

lemma isDigit_dash : ('-').isDigit = false := by decide

/-- A digit character is not equal to a non-digit character. -/
lemma beq_false_of_isDigit {c x : Char} (hx : x.isDigit = false)
    (h : c.isDigit = true) : (c == x) = false := by
  rcases Bool.eq_false_or_eq_true (c == x) with ht | hf
  · have hcx : c = x := beq_iff_eq.mp ht
    rw [hcx] at h
    rw [hx] at h
    cases h
  · exact hf

/-- A ten-character symbolic list is not the empty string. -/
lemma mk_ten_ne_empty {a b c d e f g h i j : Char} :
    (String.mk [a, b, c, d, e, f, g, h, i, j] : String) ≠ "" := by
  intro hcontra
  have := congrArg String.data hcontra
  simp at this

/-- Normalization keeps an all-digit `YYYY-MM-DD` string. -/
lemma norm_canonical_of_digits {y1 y2 y3 y4 m1 m2 d1 d2 : Char}
    (hy1 : y1.isDigit = true) (hy2 : y2.isDigit = true)
    (hy3 : y3.isDigit = true) (hy4 : y4.isDigit = true)
    (hm1 : m1.isDigit = true) (hm2 : m2.isDigit = true)
    (hd1 : d1.isDigit = true) (hd2 : d2.isDigit = true) :
    normalizeCheckinDate (some (String.mk [y1, y2, y3, y4, '-', m1, m2, '-', d1, d2])) =
      some (String.mk [y1, y2, y3, y4, '-', m1, m2, '-', d1, d2]) := by
  have htrim : jsTrim (String.mk [y1, y2, y3, y4, '-', m1, m2, '-', d1, d2]) =
      String.mk [y1, y2, y3, y4, '-', m1, m2, '-', d1, d2] := by
    unfold jsTrim
    rw [show (String.mk [y1, y2, y3, y4, '-', m1, m2, '-', d1, d2]).data =
      [y1, y2, y3, y4, '-', m1, m2, '-', d1, d2] from rfl]
    rw [jsTrimList_ten (isWs_false_of_isDigit hy1) (isWs_false_of_isDigit hd2)]
  have hre : reYMDdash (String.mk [y1, y2, y3, y4, '-', m1, m2, '-', d1, d2]) = true := by
    simp [reYMDdash, hy1, hy2, hy3, hy4, hm1, hm2, hd1, hd2]
  simp [normalizeCheckinDate, mk_ten_ne_empty, htrim, hre]

/-- Normalization rewrites an all-digit `DD.MM.YYYY` string to the
canonical shape. -/
lemma norm_dmy_dot_of_digits {y1 y2 y3 y4 m1 m2 d1 d2 : Char}
    (hy1 : y1.isDigit = true) (hy2 : y2.isDigit = true)
    (hy3 : y3.isDigit = true) (hy4 : y4.isDigit = true)
    (hm1 : m1.isDigit = true) (hm2 : m2.isDigit = true)
    (hd1 : d1.isDigit = true) (hd2 : d2.isDigit = true) :
    normalizeCheckinDate (some (String.mk [d1, d2, '.', m1, m2, '.', y1, y2, y3, y4])) =
      some (String.mk [y1, y2, y3, y4, '-', m1, m2, '-', d1, d2]) := by
  have htrim : jsTrim (String.mk [d1, d2, '.', m1, m2, '.', y1, y2, y3, y4]) =
      String.mk [d1, d2, '.', m1, m2, '.', y1, y2, y3, y4] := by
    unfold jsTrim
    rw [show (String.mk [d1, d2, '.', m1, m2, '.', y1, y2, y3, y4]).data =
      [d1, d2, '.', m1, m2, '.', y1, y2, y3, y4] from rfl]
    rw [jsTrimList_ten (isWs_false_of_isDigit hd1) (isWs_false_of_isDigit hy4)]
  have hre1 : reYMDdash (String.mk [d1, d2, '.', m1, m2, '.', y1, y2, y3, y4]) = false := by
    simp [reYMDdash, hd1, hd2, isDigit_dot]
  have hre2 : reDMYdot (String.mk [d1, d2, '.', m1, m2, '.', y1, y2, y3, y4]) = true := by
    simp [reDMYdot, hy1, hy2, hy3, hy4, hm1, hm2, hd1, hd2]
  simp [normalizeCheckinDate, mk_ten_ne_empty, htrim, hre1, hre2, canonOf, padStartL]

/-- Normalization rewrites an all-digit `DD-MM-YYYY` string to the
canonical shape. -/
lemma norm_dmy_dash_of_digits {y1 y2 y3 y4 m1 m2 d1 d2 : Char}
    (hy1 : y1.isDigit = true) (hy2 : y2.isDigit = true)
    (hy3 : y3.isDigit = true) (hy4 : y4.isDigit = true)
    (hm1 : m1.isDigit = true) (hm2 : m2.isDigit = true)
    (hd1 : d1.isDigit = true) (hd2 : d2.isDigit = true) :
    normalizeCheckinDate (some (String.mk [d1, d2, '-', m1, m2, '-', y1, y2, y3, y4])) =
      some (String.mk [y1, y2, y3, y4, '-', m1, m2, '-', d1, d2]) := by
  have htrim : jsTrim (String.mk [d1, d2, '-', m1, m2, '-', y1, y2, y3, y4]) =
      String.mk [d1, d2, '-', m1, m2, '-', y1, y2, y3, y4] := by
    unfold jsTrim
    rw [show (String.mk [d1, d2, '-', m1, m2, '-', y1, y2, y3, y4]).data =
      [d1, d2, '-', m1, m2, '-', y1, y2, y3, y4] from rfl]
    rw [jsTrimList_ten (isWs_false_of_isDigit hd1) (isWs_false_of_isDigit hy4)]
  have hre1 : reYMDdash (String.mk [d1, d2, '-', m1, m2, '-', y1, y2, y3, y4]) = false := by
    simp [reYMDdash, hd1, hd2, isDigit_dash]
  have hre2 : reDMYdot (String.mk [d1, d2, '-', m1, m2, '-', y1, y2, y3, y4]) = false := by
    simp [reDMYdot, hd1, hd2]
  have hre3 : reDMYdash (String.mk [d1, d2, '-', m1, m2, '-', y1, y2, y3, y4]) = true := by
    simp [reDMYdash, hy1, hy2, hy3, hy4, hm1, hm2, hd1, hd2]
  simp [normalizeCheckinDate, mk_ten_ne_empty, htrim, hre1, hre2, hre3, canonOf, padStartL]

/-- Normalization rewrites an all-digit `YYYY.MM.DD` string to the
canonical shape. -/
lemma norm_ymd_dot_of_digits {y1 y2 y3 y4 m1 m2 d1 d2 : Char}
    (hy1 : y1.isDigit = true) (hy2 : y2.isDigit = true)
    (hy3 : y3.isDigit = true) (hy4 : y4.isDigit = true)
    (hm1 : m1.isDigit = true) (hm2 : m2.isDigit = true)
    (hd1 : d1.isDigit = true) (hd2 : d2.isDigit = true) :
    normalizeCheckinDate (some (String.mk [y1, y2, y3, y4, '.', m1, m2, '.', d1, d2])) =
      some (String.mk [y1, y2, y3, y4, '-', m1, m2, '-', d1, d2]) := by
  have htrim : jsTrim (String.mk [y1, y2, y3, y4, '.', m1, m2, '.', d1, d2]) =
      String.mk [y1, y2, y3, y4, '.', m1, m2, '.', d1, d2] := by
    unfold jsTrim
    rw [show (String.mk [y1, y2, y3, y4, '.', m1, m2, '.', d1, d2]).data =
      [y1, y2, y3, y4, '.', m1, m2, '.', d1, d2] from rfl]
    rw [jsTrimList_ten (isWs_false_of_isDigit hy1) (isWs_false_of_isDigit hd2)]
  have hre1 : reYMDdash (String.mk [y1, y2, y3, y4, '.', m1, m2, '.', d1, d2]) = false := by
    simp [reYMDdash, hy1, hy2, hy3, hy4]
  have hre2 : reDMYdot (String.mk [y1, y2, y3, y4, '.', m1, m2, '.', d1, d2]) = false := by
    simp [reDMYdot, hy1, hy2, beq_false_of_isDigit isDigit_dot hy3]
  have hre3 : reDMYdash (String.mk [y1, y2, y3, y4, '.', m1, m2, '.', d1, d2]) = false := by
    simp [reDMYdash, hy1, hy2, beq_false_of_isDigit isDigit_dash hy3]
  have hre4 : reYMDdot (String.mk [y1, y2, y3, y4, '.', m1, m2, '.', d1, d2]) = true := by
    simp [reYMDdot, hy1, hy2, hy3, hy4, hm1, hm2, hd1, hd2]
  simp [normalizeCheckinDate, mk_ten_ne_empty, htrim, hre1, hre2, hre3, hre4,
    canonOf, padStartL]

/-- An already-canonical date string is returned unchanged. -/
lemma norm_canonical_id {s : String} (h : reYMDdash s = true) :
    normalizeCheckinDate (some s) = some s := by
  obtain ⟨l⟩ := s
  unfold reYMDdash at h
  split at h
  case h_2 => simp at h
  case h_1 a b c d e f g h' i j heq =>
    simp only [Bool.and_eq_true, beq_iff_eq] at h
    obtain ⟨⟨⟨⟨⟨⟨⟨⟨⟨ha, hb⟩, hc⟩, hd⟩, he⟩, hf⟩, hg⟩, hh⟩, hi⟩, hj⟩ := h
    have hdata : (String.mk l).data = l := rfl
    rw [hdata] at heq
    subst heq he hh
    exact norm_canonical_of_digits ha hb hc hd hf hg hi hj

/-- A string of exactly ten digits is left unchanged by the phone
normalization pipeline (strip non-digits, keep the last ten). -/
lemma phone_ten_digit_id {s : String} (hlen : jsLen s = 10)
    (hdig : s.data.all Char.isDigit = true) :
    stripNonDigits s = s ∧ sliceNeg 10 s = s ∧
      bonusSearchNormalize (some s) = .ok s := by
  obtain ⟨l⟩ := s
  have hd : ∀ x ∈ l, x.isDigit = true := by
    simpa [List.all_eq_true] using hdig
  have hstrip : stripNonDigits (String.mk l) = String.mk l := by
    unfold stripNonDigits
    rw [show (String.mk l).data = l from rfl, List.filter_eq_self.mpr hd]
  have hlen' : l.length = 10 := hlen
  have hslice : sliceNeg 10 (String.mk l) = String.mk l := by
    unfold sliceNeg
    rw [show (String.mk l).data = l from rfl, hlen']
    simp
  have hne : (String.mk l : String) ≠ "" := by
    intro hcontra
    have := congrArg String.data hcontra
    simp at this
    rw [this] at hlen'
    simp at hlen'
  refine ⟨hstrip, hslice, ?_⟩
  simp [bonusSearchNormalize, hne, hstrip, hslice, jsLen, hlen']

/-! ### C1 — loyalty tier in the bonus-lookup response -/

/-- A stored `bonuses_balance` row used as a concrete lookup result. -/
def row0 : BonusRow where
  guest_phone := "9161234567"
  last_name := "Иванова"
  first_name := "Анна"
  loyalty_level := some "1 сезон"
  current_balance := 250
  visits_count := 3
  last_visit_date := some "2024-01-15"

/-- C1 counterexample: for a found record whose stored tier is
`"1 сезон"`, the `loyalty_level` the bonus lookup delivers (and the form
displays) is the stored tier itself, not the next tier's display form
`"2 СЕЗОНА"` that §4.4's resolver would produce — the response never
advances the tier. -/
theorem loyalty_level_not_advanced_cx :
    bonusSearchData [row0] = some row0 ∧
    loyaltyFieldAfterSearch [row0] = "1 сезон" ∧
    nextTier "1 сезон" = "2 СЕЗОНА" ∧
    loyaltyFieldAfterSearch [row0] ≠ nextTier "1 сезон" ∧
    loyaltyFieldAfterSearch [row0] = jsOrEmpty row0.loyalty_level := by
  refine ⟨rfl, by decide, by decide, by decide, rfl⟩

/-- C1 (amended): the `loyalty_level` of a successful bonus lookup is the
stored tier label passed through verbatim (empty string when the stored
value is `NULL`); the next-tier default `"1 СЕЗОН"` appears only when no
record is found. -/
theorem loyalty_level_passthrough :
    (∀ (rows : List BonusRow) (g : BonusRow), bonusSearchData rows = some g →
      loyaltyFieldAfterSearch rows = jsOrEmpty g.loyalty_level) ∧
    (∀ rows : List BonusRow, bonusSearchData rows = none →
      loyaltyFieldAfterSearch rows = "1 СЕЗОН") := by
  constructor
  · intro rows g hg
    simp [loyaltyFieldAfterSearch, hg]
  · intro rows hg
    simp [loyaltyFieldAfterSearch, hg]

/-- C1 witness: the passthrough theorem applied to a singleton row list and
to the empty row list. -/
theorem loyalty_level_passthrough_witness :
    loyaltyFieldAfterSearch [row0] = jsOrEmpty row0.loyalty_level ∧
    loyaltyFieldAfterSearch [] = "1 СЕЗОН" :=
  ⟨loyalty_level_passthrough.1 [row0] row0 rfl,
   loyalty_level_passthrough.2 [] rfl⟩

/-! ### C2 — password digest comparison -/

/-- A configured digest and two same-length candidate digests mismatching
at the first and at the last character. -/
def hashAll_a : String :=
  "aaaaaaaaaaaaaaaaaaaaaaaaaaaaaaaaaaaaaaaaaaaaaaaaaaaaaaaaaaaaaaaa"

def hashMismatchFirst : String :=
  "baaaaaaaaaaaaaaaaaaaaaaaaaaaaaaaaaaaaaaaaaaaaaaaaaaaaaaaaaaaaaaa"

def hashMismatchLast : String :=
  "aaaaaaaaaaaaaaaaaaaaaaaaaaaaaaaaaaaaaaaaaaaaaaaaaaaaaaaaaaaaaaab"

/-- C2 counterexample: the equality the auth endpoint's `hashMatches` uses
(`===`, modelled operationally by `jsStrEq`/`jsStrEqTime`) is
short-circuiting: on two 64-character candidate digests that differ from
the configured digest at the first and at the last byte respectively, the
comparison performs 1 versus 64 character comparisons — its running time
depends on the position of the first mismatched byte, so it is not a
constant-time byte comparison. -/
theorem hash_compare_short_circuit_cx :
    jsLen hashAll_a = 64 ∧
    jsLen hashMismatchFirst = 64 ∧ jsLen hashMismatchLast = 64 ∧
    hashMatches (fun _ => hashMismatchFirst) hashAll_a "pw" = false ∧
    hashMatches (fun _ => hashMismatchLast) hashAll_a "pw" = false ∧
    jsStrEqTime hashMismatchFirst hashAll_a = 1 ∧
    jsStrEqTime hashMismatchLast hashAll_a = 64 ∧
    jsStrEqTime hashMismatchFirst hashAll_a ≠ jsStrEqTime hashMismatchLast hashAll_a := by
  refine ⟨by decide, by decide, by decide, by decide, by decide, by decide, by decide, by decide⟩

/-- C2 (amended): the auth endpoint accepts exactly when some candidate
password's digest (raw or trimmed form) normalizes to the configured
digest; the comparison is ordinary short-circuiting string equality, whose
verdict agrees with plain equality. -/
theorem hash_compare_plain_equality (sha : String → String) (ph raw : String) :
    hashMatches sha ph raw = true ↔
      ∃ pw ∈ candidatePasswords raw, normalizeHash (some (sha pw)) = some ph := by
  rw [hashMatches, List.any_eq_true]
  constructor
  · rintro ⟨o, ho, hmatch⟩
    rw [hashCandidate_iff] at hmatch
    simp only [List.mem_map] at ho
    obtain ⟨h1, ⟨pw, hpw, rfl⟩, rfl⟩ := ho
    exact ⟨pw, hpw, hmatch⟩
  · rintro ⟨pw, hpw, hh⟩
    refine ⟨normalizeHash (some (sha pw)), ?_, ?_⟩
    · simp only [List.mem_map]
      exact ⟨sha pw, ⟨pw, hpw, rfl⟩, rfl⟩
    · rw [hashCandidate_iff]; exact hh

/-! ### C4 — date normalization accepts exactly four shapes -/

/-- A fully valid checkout payload used as the base of the per-field
families below. -/
def pGoodBase : Payload where
  guest_phone := some "89161234567"
  last_name := some "Иванов"
  first_name := some "Иван"
  checkin_date := some "2024-03-05"
  loyalty_level := some "1 СЕЗОН"
  shelter_booking_id := some "B-100"
  total_amount := .jnum 1500
  bonus_spent := .jnull

/-- The base payload with a chosen check-in date. -/
def pDate (d : String) : Payload :=
  { pGoodBase with checkin_date := some d }

/-- C4: the four accepted textual shapes of one calendar date all normalize
to the identical canonical `YYYY-MM-DD` string; a trimmed value matching
none of the four shapes (such as `"2024/03/05"`) is rejected; and a value
that rewrites to a non-existent calendar date (`"31.02.2024"`) fails the
validator's date-parse check, while a valid `"05.03.2024"` is stored as
`"2024-03-05"`. -/
theorem date_normalization_four_shapes :
    (∀ y1 y2 y3 y4 m1 m2 d1 d2 : Char,
      ([y1, y2, y3, y4, m1, m2, d1, d2].all Char.isDigit) = true →
      (normalizeCheckinDate (some (String.mk [y1, y2, y3, y4, '-', m1, m2, '-', d1, d2])) =
          some (String.mk [y1, y2, y3, y4, '-', m1, m2, '-', d1, d2]) ∧
        normalizeCheckinDate (some (String.mk [d1, d2, '.', m1, m2, '.', y1, y2, y3, y4])) =
          some (String.mk [y1, y2, y3, y4, '-', m1, m2, '-', d1, d2]) ∧
        normalizeCheckinDate (some (String.mk [d1, d2, '-', m1, m2, '-', y1, y2, y3, y4])) =
          some (String.mk [y1, y2, y3, y4, '-', m1, m2, '-', d1, d2]) ∧
        normalizeCheckinDate (some (String.mk [y1, y2, y3, y4, '.', m1, m2, '.', d1, d2])) =
          some (String.mk [y1, y2, y3, y4, '-', m1, m2, '-', d1, d2]))) ∧
    (∀ s : String,
      reYMDdash (jsTrim s) = false → reDMYdot (jsTrim s) = false →
      reDMYdash (jsTrim s) = false → reYMDdot (jsTrim s) = false →
      normalizeCheckinDate (some s) = none) ∧
    normalizeCheckinDate (some "2024/03/05") = none ∧
    validateGuests (pDate "31.02.2024") = .error msgDateParse ∧
    validateGuests (pDate "05.03.2024") = .ok (mkRecord (pDate "05.03.2024")) ∧
    (mkRecord (pDate "05.03.2024")).checkin_date = "2024-03-05" := by
  refine ⟨?_, ?_, by decide, by decide, by decide, by decide⟩
  · intro y1 y2 y3 y4 m1 m2 d1 d2 hall
    simp only [List.all_cons, List.all_nil, Bool.and_eq_true] at hall
    obtain ⟨hy1, hy2, hy3, hy4, hm1, hm2, hd1, hd2, -⟩ := hall
    exact ⟨norm_canonical_of_digits hy1 hy2 hy3 hy4 hm1 hm2 hd1 hd2,
      norm_dmy_dot_of_digits hy1 hy2 hy3 hy4 hm1 hm2 hd1 hd2,
      norm_dmy_dash_of_digits hy1 hy2 hy3 hy4 hm1 hm2 hd1 hd2,
      norm_ymd_dot_of_digits hy1 hy2 hy3 hy4 hm1 hm2 hd1 hd2⟩
  · intro s h1 h2 h3 h4
    by_cases hv : s = ""
    · simp [normalizeCheckinDate, hv]
    · simp [normalizeCheckinDate, hv, h1, h2, h3, h4]

/-- C4 witness: the four-shape agreement applied to the calendar date
2024-03-05 and the rejection applied to `"2024/03/05"`. -/
theorem date_normalization_four_shapes_witness :
    normalizeCheckinDate (some (String.mk ['0', '5', '.', '0', '3', '.', '2', '0', '2', '4'])) =
      some (String.mk ['2', '0', '2', '4', '-', '0', '3', '-', '0', '5']) ∧
    normalizeCheckinDate (some "2024/03/05") = none :=
  ⟨(date_normalization_four_shapes.1 '2' '0' '2' '4' '0' '3' '0' '5' (by decide)).2.1,
   date_normalization_four_shapes.2.1 "2024/03/05"
     (by decide) (by decide) (by decide) (by decide)⟩

/-! ### C8 — idempotence of the two normalizations -/

/-- C8: a string already in canonical `YYYY-MM-DD` shape is returned
unchanged by date normalization, and a string of exactly ten decimal digits
passes through the phone pipeline (strip non-digits, keep the last ten, and
the whole search-endpoint normalization) unchanged. -/
theorem normalization_idempotent :
    (∀ s : String, reYMDdash s = true → normalizeCheckinDate (some s) = some s) ∧
    (∀ s : String, jsLen s = 10 → s.data.all Char.isDigit = true →
      stripNonDigits s = s ∧ sliceNeg 10 s = s ∧
        bonusSearchNormalize (some s) = .ok s) :=
  ⟨fun _ h => norm_canonical_id h, fun _ h1 h2 => phone_ten_digit_id h1 h2⟩

/-- C8 witness: idempotence at the canonical date `"2024-03-05"` and the
ten-digit phone `"9161234567"`. -/
theorem normalization_idempotent_witness :
    normalizeCheckinDate (some "2024-03-05") = some "2024-03-05" ∧
    stripNonDigits "9161234567" = "9161234567" ∧
    bonusSearchNormalize (some "9161234567") = .ok "9161234567" :=
  ⟨normalization_idempotent.1 "2024-03-05" (by decide),
   (normalization_idempotent.2 "9161234567" (by decide) (by decide)).1,
   (normalization_idempotent.2 "9161234567" (by decide) (by decide)).2.2⟩

/-! ### C3 — phone normalization keeps the last ten digits -/

/-- The base payload with a chosen guest phone. -/
def pPhone (s : String) : Payload :=
  { pGoodBase with guest_phone := some s }

/-- C3: for every non-empty phone string, both `POST /api/guests` and
`GET /api/bonuses/search` strip the non-digit characters, reject with a
validation error when fewer than ten digits remain, and otherwise keep
exactly the last ten digits; `"+7 (916) 123-45-67"` normalizes to
`"9161234567"`. -/
theorem phone_normalization_last_ten :
    (∀ s : String, s ≠ "" →
      (jsLen (stripNonDigits s) < 10 →
        validateGuests (pPhone s) = .error msgPhone ∧
        bonusSearchNormalize (some s) = .error "Неверный формат номера телефона") ∧
      (10 ≤ jsLen (stripNonDigits s) →
        validateGuests (pPhone s) = .ok (mkRecord (pPhone s)) ∧
        (mkRecord (pPhone s)).guest_phone = sliceNeg 10 (stripNonDigits s) ∧
        bonusSearchNormalize (some s) = .ok (sliceNeg 10 (stripNonDigits s)))) ∧
    bonusSearchNormalize (some "+7 (916) 123-45-67") = .ok "9161234567" ∧
    (mkRecord (pPhone "+7 (916) 123-45-67")).guest_phone = "9161234567" := by
  refine ⟨?_, by decide, by decide⟩
  intro s hs
  have hph : pDigits (pPhone s) = stripNonDigits s := by
    simp [pDigits, pPhone, pGoodBase]
  have hreq : reqMissing (pPhone s) = false := by
    simp [reqMissing, pPhone, pGoodBase, truthyS, truthyJ, hs]
  constructor
  · intro hlt
    have hshort : phoneShort (pPhone s) = true := by
      simp only [phoneShort, hph, decide_eq_true_eq]
      exact hlt
    constructor
    · simp [validateGuests, hreq, hshort]
    · simp [bonusSearchNormalize, hs, hlt]
  · intro hge
    have hshort : phoneShort (pPhone s) = false := by
      simp only [phoneShort, hph, decide_eq_false_iff_not, Nat.not_lt]
      exact hge
    have h3 : namesEmpty (pPhone s) = false := by
      show namesEmpty pGoodBase = false; decide
    have h4 : namesLong (pPhone s) = false := by
      show namesLong pGoodBase = false; decide
    have h5 : bookingEmpty (pPhone s) = false := by
      show bookingEmpty pGoodBase = false; decide
    have h6 : bookingLong (pPhone s) = false := by
      show bookingLong pGoodBase = false; decide
    have h7 : dateShapeBad (pPhone s) = false := by
      show dateShapeBad pGoodBase = false; decide
    have h8 : dateParseBad (pPhone s) = false := by
      show dateParseBad pGoodBase = false; decide
    have h9 : amountBad (pPhone s) = false := by
      show amountBad pGoodBase = false; decide
    have h10 : bonusTooBig (pPhone s) = false := by
      show bonusTooBig pGoodBase = false; decide
    refine ⟨?_, ?_, ?_⟩
    · simp [validateGuests, hreq, hshort, h3, h4, h5, h6, h7, h8, h9, h10]
    · simp [mkRecord, hph]
    · have hnlt : ¬jsLen (stripNonDigits s) < 10 := Nat.not_lt.mpr hge
      simp [bonusSearchNormalize, hs, hnlt]

/-- C3 witness: the short phone `"123"` is rejected by the guests
validator, and the formatted example keeps its last ten digits on the
search endpoint. -/
theorem phone_normalization_last_ten_witness :
    validateGuests (pPhone "123") = .error msgPhone ∧
    bonusSearchNormalize (some "+7 (916) 123-45-67") =
      .ok (sliceNeg 10 (stripNonDigits "+7 (916) 123-45-67")) :=
  ⟨((phone_normalization_last_ten.1 "123" (by decide)).1 (by decide)).1,
   ((phone_normalization_last_ten.1 "+7 (916) 123-45-67" (by decide)).2 (by decide)).2.2⟩

/-! ### C5 — first-error-wins versus collect-all -/

/-- A payload with three violations: empty last name after trimming, a
date matching no accepted shape, and a non-positive amount. -/
def pMulti : Payload :=
  { pGoodBase with
      last_name := some " "
      checkin_date := some "bad"
      total_amount := .jnum (-5) }

/-- C5 counterexample: on a payload with three independent violations the
spec's collect-all policy would gather four issues (the unparseable date
trips both date checks), but the handler's rejection carries exactly the
single first-check message — it short-circuits instead of collecting all
violations in one pass. -/
theorem validator_first_error_wins_cx :
    collectAllIssues pMulti = [msgNamesEmpty, msgDateShape, msgDateParse, msgAmount] ∧
    validateGuestsIssues pMulti = [msgNamesEmpty] ∧
    validateGuestsIssues pMulti ≠ collectAllIssues pMulti ∧
    addGuestStatus pMulti = 400 := by
  refine ⟨by decide, by decide, by decide, by decide⟩

/-- C5 (amended): the strict validator uses first-error-wins
short-circuiting — the checks run in a fixed source order, and the single
user-facing message of a rejection is the first violation in that order
(the head of the collect-all list), surfaced with HTTP status 400; a
payload with no violation yields an empty violation list. -/
theorem validator_surfaces_first_issue (p : Payload) :
    match validateGuests p with
    | .error m => (collectAllIssues p).head? = some m ∧ addGuestStatus p = 400
    | .ok _ => collectAllIssues p = [] := by
  by_cases h1 : reqMissing p = true
  · simp [validateGuests, collectAllIssues, addGuestStatus, h1]
  · by_cases h2 : phoneShort p = true
    · simp [validateGuests, collectAllIssues, addGuestStatus, h1, h2]
    · by_cases h3 : namesEmpty p = true
      · simp [validateGuests, collectAllIssues, addGuestStatus, h1, h2, h3]
      · by_cases h4 : namesLong p = true
        · simp [validateGuests, collectAllIssues, addGuestStatus, h1, h2, h3, h4]
        · by_cases h5 : bookingEmpty p = true
          · simp [validateGuests, collectAllIssues, addGuestStatus, h1, h2, h3, h4, h5]
          · by_cases h6 : bookingLong p = true
            · simp [validateGuests, collectAllIssues, addGuestStatus, h1, h2, h3, h4, h5, h6]
            · by_cases h7 : dateShapeBad p = true
              · simp [validateGuests, collectAllIssues, addGuestStatus,
                  h1, h2, h3, h4, h5, h6, h7]
              · by_cases h8 : dateParseBad p = true
                · simp [validateGuests, collectAllIssues, addGuestStatus,
                    h1, h2, h3, h4, h5, h6, h7, h8]
                · by_cases h9 : amountBad p = true
                  · simp [validateGuests, collectAllIssues, addGuestStatus,
                      h1, h2, h3, h4, h5, h6, h7, h8, h9]
                  · by_cases h10 : bonusTooBig p = true
                    · simp [validateGuests, collectAllIssues, addGuestStatus,
                        h1, h2, h3, h4, h5, h6, h7, h8, h9, h10]
                    · simp [validateGuests, collectAllIssues, addGuestStatus,
                        h1, h2, h3, h4, h5, h6, h7, h8, h9, h10]

/-! ### C6 — missing password secret is fatal at startup -/

/-- C6: with authentication enabled and no valid `PASSWORD_HASH`, the
startup guard refuses to start the process; and whenever the process did
start, no request to `/api/auth` is ever answered with the 500
configuration-error response — the missing secret is a startup failure,
never a per-request one. -/
theorem missing_secret_fatal_at_startup :
    (∀ cfg : ServerConfig, authDisabled cfg = false → passwordHash cfg = none →
      startupOk cfg = false) ∧
    (∀ (sha : String → String) (cfg : ServerConfig) (pw : Option String),
      startupOk cfg = true → (authHandler sha cfg pw).status ≠ 500) := by
  constructor
  · intro cfg hd hh
    simp [startupOk, hd, hh]
  · intro sha cfg pw hok
    rw [startupOk, Bool.and_eq_true, Bool.or_eq_true] at hok
    unfold authHandler
    cases hd : authDisabled cfg with
    | true => simp [hd]
    | false =>
      have hh : (passwordHash cfg).isSome = true := by
        rcases hok.2 with h | h
        · rw [hd] at h; cases h
        · exact h
      rw [if_neg (by simp [hd])]
      cases pw with
      | none => simp
      | some s =>
        rcases hps : passwordHash cfg with _ | ph
        · rw [hps] at hh; simp at hh
        · by_cases hs : s = ""
          · simp [hs]
          · by_cases ht : jsTrim s = ""
            · simp [hs, ht]
            · by_cases hm : hashMatches sha ph s = true
              · simp [hs, ht, hps, hm]
              · simp [hs, ht, hps, hm]

/-- C6 witness: a configuration with auth enabled and no hash is refused at
startup, and under a started configuration (auth disabled) the handler never
answers 500. -/
theorem missing_secret_fatal_at_startup_witness :
    startupOk ⟨some "postgres", none, none⟩ = false ∧
    (authHandler (fun s => s) ⟨some "postgres", some "true", none⟩ (some "x")).status ≠ 500 :=
  ⟨missing_secret_fatal_at_startup.1 ⟨some "postgres", none, none⟩ (by decide) (by decide),
   missing_secret_fatal_at_startup.2 (fun s => s) ⟨some "postgres", some "true", none⟩
     (some "x") (by decide)⟩

/-! ### C7 — total_amount acceptance boundary -/

/-- The base payload with a chosen total amount. -/
def pAmt (v : JVal) : Payload :=
  { pGoodBase with total_amount := v }

/-- C7: with every other field valid, the strict guests validator accepts
the payload exactly when the parsed numeric value `q` of `total_amount` is
finite (the parse yields `some q`) and `0 < q ≤ 1 000 000`; in particular
`1000000` is accepted while `1000000.01`, `0`, `-100`, `"Infinity"` and a
missing amount are each rejected. -/
theorem amount_bounds_acceptance :
    (∀ v : JVal, exceptOk (validateGuests (pAmt v)) = true ↔
      ∃ q : ℚ, parseFloatJ v = some q ∧ 0 < q ∧ q ≤ 1000000) ∧
    exceptOk (validateGuests (pAmt (.jnum 1000000))) = true ∧
    exceptOk (validateGuests (pAmt (.jnum (1000000.01 : ℚ)))) = false ∧
    exceptOk (validateGuests (pAmt (.jnum 0))) = false ∧
    exceptOk (validateGuests (pAmt (.jnum (-100)))) = false ∧
    exceptOk (validateGuests (pAmt (.jstr "Infinity"))) = false ∧
    exceptOk (validateGuests (pAmt .jnull)) = false := by
  have main : ∀ v : JVal, exceptOk (validateGuests (pAmt v)) = true ↔
      ∃ q : ℚ, parseFloatJ v = some q ∧ 0 < q ∧ q ≤ 1000000 := by
    intro v
    have h2 : phoneShort (pAmt v) = false := by
      show phoneShort pGoodBase = false; decide
    have h3 : namesEmpty (pAmt v) = false := by
      show namesEmpty pGoodBase = false; decide
    have h4 : namesLong (pAmt v) = false := by
      show namesLong pGoodBase = false; decide
    have h5 : bookingEmpty (pAmt v) = false := by
      show bookingEmpty pGoodBase = false; decide
    have h6 : bookingLong (pAmt v) = false := by
      show bookingLong pGoodBase = false; decide
    have h7 : dateShapeBad (pAmt v) = false := by
      show dateShapeBad pGoodBase = false; decide
    have h8 : dateParseBad (pAmt v) = false := by
      show dateParseBad pGoodBase = false; decide
    have h10 : bonusTooBig (pAmt v) = false := by
      show bonusTooBig pGoodBase = false; decide
    have hreq : reqMissing (pAmt v) = !truthyJ v := rfl
    have hAmtP : amountParsed (pAmt v) = parseFloatJ v := rfl
    constructor
    · intro hok
      rcases htv : truthyJ v with _ | _
      · have hv : validateGuests (pAmt v) = .error msgRequired := by
          simp [validateGuests, hreq, htv]
        rw [hv] at hok
        simp [exceptOk] at hok
      · rcases hq : parseFloatJ v with _ | q
        · have hab : amountBad (pAmt v) = true := by
            simp [amountBad, hAmtP, hq]
          have hv : validateGuests (pAmt v) = .error msgAmount := by
            simp [validateGuests, hreq, htv, h2, h3, h4, h5, h6, h7, h8, hab]
          rw [hv] at hok
          simp [exceptOk] at hok
        · by_cases hle : q ≤ 0
          · have hab : amountBad (pAmt v) = true := by
              simp [amountBad, hAmtP, hq, hle]
            have hv : validateGuests (pAmt v) = .error msgAmount := by
              simp [validateGuests, hreq, htv, h2, h3, h4, h5, h6, h7, h8, hab]
            rw [hv] at hok
            simp [exceptOk] at hok
          · by_cases hgt : q > 1000000
            · have hab : amountBad (pAmt v) = true := by
                simp [amountBad, hAmtP, hq, hgt]
              have hv : validateGuests (pAmt v) = .error msgAmount := by
                simp [validateGuests, hreq, htv, h2, h3, h4, h5, h6, h7, h8, hab]
              rw [hv] at hok
              simp [exceptOk] at hok
            · exact ⟨q, rfl, not_le.mp hle, not_lt.mp hgt⟩
    · rintro ⟨q, hq, h0, h1⟩
      have htv : truthyJ v = true := by
        cases v with
        | jnum r =>
          have hr : r = q := by
            simpa [parseFloatJ] using hq
          subst hr
          simp [truthyJ]
          exact ne_of_gt h0
        | jstr s =>
          have hs : s ≠ "" := by
            rintro rfl
            rw [show parseFloatJ (JVal.jstr "") = none from rfl] at hq
            cases hq
          simp [truthyJ, hs]
        | jnull => simp [parseFloatJ] at hq
      have hab : amountBad (pAmt v) = false := by
        simp only [amountBad, hAmtP, hq]
        rw [Bool.or_eq_false_iff]
        exact ⟨decide_eq_false (not_le.mpr h0), decide_eq_false (not_lt.mpr h1)⟩
      have hv : validateGuests (pAmt v) = .ok (mkRecord (pAmt v)) := by
        simp [validateGuests, hreq, htv, h2, h3, h4, h5, h6, h7, h8, hab, h10]
      rw [hv]
      rfl
  refine ⟨main, ?_, ?_, ?_, ?_, ?_, ?_⟩
  · exact (main _).mpr ⟨1000000, rfl, by norm_num, by norm_num⟩
  · rw [Bool.eq_false_iff]
    intro h
    obtain ⟨q, hq, h0, h1⟩ := (main _).mp h
    have hq' : (1000000.01 : ℚ) = q := by simpa [parseFloatJ] using hq
    rw [← hq'] at h1
    norm_num at h1
  · rw [Bool.eq_false_iff]
    intro h
    obtain ⟨q, hq, h0, h1⟩ := (main _).mp h
    have hq' : (0 : ℚ) = q := by simpa [parseFloatJ] using hq
    rw [← hq'] at h0
    norm_num at h0
  · rw [Bool.eq_false_iff]
    intro h
    obtain ⟨q, hq, h0, h1⟩ := (main _).mp h
    have hq' : (-100 : ℚ) = q := by simpa [parseFloatJ] using hq
    rw [← hq'] at h0
    norm_num at h0
  · rw [Bool.eq_false_iff]
    intro h
    obtain ⟨q, hq, h0, h1⟩ := (main _).mp h
    rw [show parseFloatJ (JVal.jstr "Infinity") = none from rfl] at hq
    cases hq
  · rw [Bool.eq_false_iff]
    intro h
    obtain ⟨q, hq, h0, h1⟩ := (main _).mp h
    rw [show parseFloatJ JVal.jnull = none from rfl] at hq
    cases hq

/-! ### C9 — bonus_spent coercion -/

/-- The base payload with a chosen bonus-spent value. -/
def pBonus (v : JVal) : Payload :=
  { pGoodBase with bonus_spent := v }

/-- C9: with every other field valid, a `bonus_spent` whose integer parse
fails is silently stored as `0`; a parsed value `n` is rejected exactly
when `n > 1 000 000`, stored as `n` when positive and within bound, and
silently coerced to `0` when non-positive (in particular when negative);
`"-25"` parses to `-25` and is stored as `0`, `"abc"` fails to parse and is
stored as `0`, and `"1000001"` is rejected. -/
theorem bonus_spent_coercion :
    (∀ v : JVal,
      (parseIntJ v = none →
        validateGuests (pBonus v) = .ok (mkRecord (pBonus v)) ∧
          (mkRecord (pBonus v)).bonus_spent = 0) ∧
      (∀ n : ℤ, parseIntJ v = some n →
        (1000000 < n → validateGuests (pBonus v) = .error msgBonus) ∧
        (n ≤ 1000000 →
          validateGuests (pBonus v) = .ok (mkRecord (pBonus v)) ∧
            (mkRecord (pBonus v)).bonus_spent = (if n > 0 then n else 0)))) ∧
    parseIntJ (.jstr "-25") = some (-25) ∧
    (mkRecord (pBonus (.jstr "-25"))).bonus_spent = 0 ∧
    parseIntJ (.jstr "abc") = none ∧
    (mkRecord (pBonus (.jstr "abc"))).bonus_spent = 0 ∧
    validateGuests (pBonus (.jstr "1000001")) = .error msgBonus := by
  have hbase : ∀ v : JVal,
      reqMissing (pBonus v) = false ∧ phoneShort (pBonus v) = false ∧
      namesEmpty (pBonus v) = false ∧ namesLong (pBonus v) = false ∧
      bookingEmpty (pBonus v) = false ∧ bookingLong (pBonus v) = false ∧
      dateShapeBad (pBonus v) = false ∧ dateParseBad (pBonus v) = false ∧
      amountBad (pBonus v) = false := by
    intro v
    refine ⟨?_, ?_, ?_, ?_, ?_, ?_, ?_, ?_, ?_⟩
    · show reqMissing pGoodBase = false; decide
    · show phoneShort pGoodBase = false; decide
    · show namesEmpty pGoodBase = false; decide
    · show namesLong pGoodBase = false; decide
    · show bookingEmpty pGoodBase = false; decide
    · show bookingLong pGoodBase = false; decide
    · show dateShapeBad pGoodBase = false; decide
    · show dateParseBad pGoodBase = false; decide
    · show amountBad pGoodBase = false; decide
  have main : ∀ v : JVal,
      (parseIntJ v = none →
        validateGuests (pBonus v) = .ok (mkRecord (pBonus v)) ∧
          (mkRecord (pBonus v)).bonus_spent = 0) ∧
      (∀ n : ℤ, parseIntJ v = some n →
        (1000000 < n → validateGuests (pBonus v) = .error msgBonus) ∧
        (n ≤ 1000000 →
          validateGuests (pBonus v) = .ok (mkRecord (pBonus v)) ∧
            (mkRecord (pBonus v)).bonus_spent = (if n > 0 then n else 0))) := by
    intro v
    obtain ⟨h1, h2, h3, h4, h5, h6, h7, h8, h9⟩ := hbase v
    have hraw : bonusRaw (pBonus v) = parseIntJ v := rfl
    constructor
    · intro hq
      have hbv : bonusValue (pBonus v) = 0 := by
        simp [bonusValue, hraw, hq]
      have hbb : bonusTooBig (pBonus v) = false := by
        simp only [bonusTooBig, hbv]
        decide
      constructor
      · simp [validateGuests, h1, h2, h3, h4, h5, h6, h7, h8, h9, hbb]
      · simp [mkRecord, hbv]
    · intro n hq
      have hbv : bonusValue (pBonus v) = (if n > 0 then n else 0) := by
        simp [bonusValue, hraw, hq]
      constructor
      · intro hgt
        have hpos : n > 0 := by omega
        have hbb : bonusTooBig (pBonus v) = true := by
          simp only [bonusTooBig, hbv, if_pos hpos]
          exact decide_eq_true hgt
        simp [validateGuests, h1, h2, h3, h4, h5, h6, h7, h8, h9, hbb]
      · intro hle
        have hbb : bonusTooBig (pBonus v) = false := by
          simp only [bonusTooBig, hbv]
          by_cases hpos : n > 0
          · rw [if_pos hpos]
            exact decide_eq_false (by omega)
          · rw [if_neg hpos]
            decide
        constructor
        · simp [validateGuests, h1, h2, h3, h4, h5, h6, h7, h8, h9, hbb]
        · simp [mkRecord, hbv]
  refine ⟨main, by decide, ?_, by decide, ?_, ?_⟩
  · have := ((main (.jstr "-25")).2 (-25) (by decide)).2 (by decide)
    rw [this.2]
    decide
  · exact ((main (.jstr "abc")).1 (by decide)).2
  · exact ((main (.jstr "1000001")).2 1000001 (by decide)).1 (by decide)

/-- C9 witness: the coercion theorem applied at the unparseable
`"abc"` (stored as `0`) and at the in-range `"500"` (stored as `500`). -/
theorem bonus_spent_coercion_witness :
    validateGuests (pBonus (.jstr "abc")) = .ok (mkRecord (pBonus (.jstr "abc"))) ∧
    validateGuests (pBonus (.jstr "500")) = .ok (mkRecord (pBonus (.jstr "500"))) :=
  ⟨((bonus_spent_coercion.1 (.jstr "abc")).1 (by decide)).1,
   (((bonus_spent_coercion.1 (.jstr "500")).2 500 (by decide)).2 (by decide)).1⟩

/-! ### C10 — malformed `PASSWORD_HASH` is treated as unset -/

/-- C10: a configured hash whose cleaned form (trimmed, lower-cased,
whitespace-stripped, optional `sha256`-style and `0x` tags removed) is not
exactly 64 hexadecimal characters is normalized to `undefined`; with
authentication enabled such a configuration therefore fails the startup
guard instead of serving an unwinnable check. -/
theorem malformed_hash_treated_unset :
    (∀ s : String,
      isHex64 (stripHexTag (stripShaTag (cleanHashStage s))) = false →
      normalizeHash (some s) = none) ∧
    (∀ cfg : ServerConfig, authDisabled cfg = false →
      normalizeHash cfg.passwordHashEnv = none → startupOk cfg = false) := by
  constructor
  · intro s h
    simp [normalizeHash, h]
  · intro cfg hd hh
    simp [startupOk, hd, passwordHash, hh]

/-- C10 witness: the short string `"deadbeef"` is not 64 hex characters, is
normalized to `undefined`, and dooms a startup with auth enabled. -/
theorem malformed_hash_treated_unset_witness :
    normalizeHash (some "deadbeef") = none ∧
    startupOk ⟨some "postgres", none, some "deadbeef"⟩ = false :=
  ⟨malformed_hash_treated_unset.1 "deadbeef" (by decide),
   malformed_hash_treated_unset.2 ⟨some "postgres", none, some "deadbeef"⟩
     (by decide) (malformed_hash_treated_unset.1 "deadbeef" (by decide))⟩

end Amvera
